import Mathlib

/-!
Verification of the claim-audit frontend (repository POC).

The repository is a TypeScript/React frontend with two pieces of decision
logic:

* the worklist filter of src/frontend/src/app/page.tsx (lines 42-54), and
* the audit-result classifier / renderer of the claim detail page
  (src/unnamed/part_000, lines 104-119 and 248-358; src/unnamed/part_001 is
  a second, partly garbled copy of the same page whose warning branch at
  lines 376-398 differs from part_000).

JavaScript strings are modelled as lists of Unicode code points
(`List Nat`); the handful of string primitives the code uses
(toLowerCase, trim, includes, startsWith, truthiness) are defined below on
that representation.
-/

/-- JavaScript string, as its sequence of code points. -/
abbrev JSStr := List Nat

/-- Build a modelled JS string from a Lean string literal. -/
def strW (s : String) : JSStr := s.data.map Char.toNat

/-- One code point of String.prototype.toLowerCase, restricted to the ASCII
range the repository's data uses: A-Z (65-90) maps to a-z (97-122),
everything else is unchanged. -/
def lowerCode (n : Nat) : Nat := if 65 ≤ n ∧ n ≤ 90 then n + 32 else n

/-- String.prototype.toLowerCase. -/
def toLowerStr (s : JSStr) : JSStr := s.map lowerCode

/-- The JS WhiteSpace / LineTerminator code points stripped by
String.prototype.trim: TAB, LF, VT, FF, CR, SP, NBSP, LS, PS, ZWNBSP. -/
def isSpaceCode (n : Nat) : Bool :=
  n = 9 || n = 10 || n = 11 || n = 12 || n = 13 || n = 32 ||
  n = 160 || n = 8232 || n = 8233 || n = 65279

/-- String.prototype.trim: drop leading and trailing whitespace. -/
def trimStr (s : JSStr) : JSStr :=
  ((s.dropWhile isSpaceCode).reverse.dropWhile isSpaceCode).reverse

/-- String.prototype.includes: pat occurs as a contiguous substring of s. -/
def includesStr (s pat : JSStr) : Bool :=
  match s with
  | [] => pat.isEmpty
  | c :: t => pat.isPrefixOf (c :: t) || includesStr t pat

/-- String.prototype.startsWith. -/
def startsWithStr (s pat : JSStr) : Bool := pat.isPrefixOf s

/-- JS truthiness of an optional string field: undefined and null and the
empty string are falsy. -/
def truthyStr (o : Option JSStr) : Bool :=
  match o with
  | some s => !s.isEmpty
  | none => false

/-! ## Worklist filter (src/frontend/src/app/page.tsx, lines 8-15 and 42-54) -/

/-- The worklist claim projection (page.tsx lines 8-15). Fields typed
`T | null` in TS are `Option`; `claim_amount` is kept abstract as an
integer, it does not participate in filtering. -/
structure WorklistClaim where
  id : Nat
  patient_id : JSStr
  payer_name : Option JSStr
  date_of_service : Option JSStr
  claim_amount : Option Int
  status : JSStr
deriving DecidableEq

/-- page.tsx line 43: `searchQuery.toLowerCase().trim()`. -/
def normalizeQuery (searchQuery : JSStr) : JSStr := trimStr (toLowerStr searchQuery)

/-- page.tsx lines 48-52: the predicate passed to `claims.filter`. The
`claim.payer_name && ...` conjunction makes a null or empty payer_name
falsy before `.includes` is consulted. -/
def claimMatches (query : JSStr) (c : WorklistClaim) : Bool :=
  includesStr (toLowerStr c.patient_id) query ||
  (match c.payer_name with
   | some p => !p.isEmpty && includesStr (toLowerStr p) query
   | none => false)

/-- page.tsx lines 42-54: the filtering effect. An empty normalized query
short-circuits to the full list; otherwise `claims.filter` with
`claimMatches`. -/
def filterClaims (claims : List WorklistClaim) (searchQuery : JSStr) : List WorklistClaim :=
  if (normalizeQuery searchQuery).isEmpty then claims
  else claims.filter (claimMatches (normalizeQuery searchQuery))

/-! ### Supporting lemmas for the filter -/

theorem isSpaceCode_false_of_range (n : Nat) (h1 : 33 ≤ n) (h2 : n ≤ 159) :
    isSpaceCode n = false := by
  simp only [isSpaceCode, Bool.or_eq_false_iff, decide_eq_false_iff_not]
  omega

theorem isSpaceCode_lowerCode (n : Nat) : isSpaceCode (lowerCode n) = isSpaceCode n := by
  unfold lowerCode
  split
  · next h =>
    rw [isSpaceCode_false_of_range (n + 32) (by omega) (by omega),
      isSpaceCode_false_of_range n (by omega) (by omega)]
  · rfl

theorem trimStr_toLowerStr (s : JSStr) :
    trimStr (toLowerStr s) = toLowerStr (trimStr s) := by
  unfold trimStr toLowerStr
  have hcomp : (isSpaceCode ∘ lowerCode) = isSpaceCode := by
    funext n
    exact isSpaceCode_lowerCode n
  rw [List.dropWhile_map, hcomp, ← List.map_reverse, List.dropWhile_map, hcomp,
    ← List.map_reverse]

theorem normalizeQuery_eq (q : JSStr) : normalizeQuery q = toLowerStr (trimStr q) := by
  unfold normalizeQuery
  exact trimStr_toLowerStr q

theorem dropWhile_all_space (s : JSStr) (h : ∀ n ∈ s, isSpaceCode n = true) :
    s.dropWhile isSpaceCode = [] := by
  induction s with
  | nil => rfl
  | cons c t ih =>
    rw [List.dropWhile_cons]
    rw [h c (List.mem_cons_self c t)]
    simp only [if_true]
    exact ih fun n hn => h n (List.mem_cons_of_mem c hn)

theorem trimStr_all_space (s : JSStr) (h : ∀ n ∈ s, isSpaceCode n = true) :
    trimStr s = [] := by
  unfold trimStr
  rw [dropWhile_all_space s h]
  rfl

theorem includesStr_nil (pat : JSStr) (h : pat ≠ []) : includesStr [] pat = false := by
  unfold includesStr
  cases pat with
  | nil => exact absurd rfl h
  | cons c t => rfl

/-! ## Audit response payload (src/unnamed/part_000, lines 37-49)

The verification endpoint returns a loosely-typed JSON payload. Every field
is optional at runtime (the TS interface marks several as required, but the
rendering code guards each one), so each field is an `Option`. -/

structure AuditResult where
  verdict : Option JSStr := none
  confidence_score : Option Int := none
  reasoning : Option JSStr := none
  missing_criteria : Option (List JSStr) := none
  suggested_fix : Option JSStr := none
  step_failed : Option JSStr := none
  coding_flags : Option (List JSStr) := none
  policy_source : Option JSStr := none
  status : Option JSStr := none
  message : Option JSStr := none
  raw_output : Option JSStr := none
deriving DecidableEq

/-- The empty JSON object as an audit response. -/
def emptyAudit : AuditResult := {}

/-- part_000 line 276: `audit.status === "warning" || audit.status === "error"`.
Strict string equality; an absent status matches neither. -/
def isPipelineStatus (r : AuditResult) : Bool :=
  match r.status with
  | some s => decide (s = strW ("warning")) || decide (s = strW ("error"))
  | none => false

/-- part_000 line 296: `audit.raw_output ?` — truthiness of the raw_output
field: present and a non-empty string. -/
def hasRawOutput (r : AuditResult) : Bool := truthyStr r.raw_output

/-- The three result presentation variants selected by the ternary chain of
part_000 lines 276-301 (within the `audit && !auditing` branch). -/
inductive ResultVariant where
  | pipelineIssue
  | rawFallback
  | structuredVerdict
deriving DecidableEq

/-- part_000 lines 276-301: the classifier. The status check comes first,
then the raw_output truthiness check, and the structured verdict is the
default. -/
def classify (r : AuditResult) : ResultVariant :=
  if isPipelineStatus r then ResultVariant.pipelineIssue
  else if hasRawOutput r then ResultVariant.rawFallback
  else ResultVariant.structuredVerdict

/-- part_000 lines 296-300: `{audit.raw_output}` — the text shown in the
raw-fallback branch is the raw_output field itself. -/
def rawFallbackText (r : AuditResult) : JSStr :=
  match r.raw_output with
  | some s => s
  | none => []

/-- part_000 line 326 (and part_001 lines 381, 452):
`flag.startsWith("DENIED")` — literal, case-sensitive prefix test. -/
def flagIsDenied (flag : JSStr) : Bool := startsWithStr flag (strW ("DENIED"))

/-- part_000 lines 283-294: in the Pipeline-Warning/Error branch each coding
flag is rendered as a plain list item with one fixed style; no flag
receives a denied-class marking (the `flag.startsWith("DENIED")` test of
the structured branch is absent here). The Bool is the denied-class
marker attached to each rendered entry. -/
def warningFlagsRender_part000 (flags : List JSStr) : List (JSStr × Bool) :=
  flags.map (fun f => (f, false))

/-- part_001 lines 376-398: the same Pipeline-Warning/Error branch in the
sibling source file computes `isDenied = flag.startsWith("DENIED")` for
each flag and styles the entry red (denied-class) exactly when it holds. -/
def warningFlagsRender_part001 (flags : List JSStr) : List (JSStr × Bool) :=
  flags.map (fun f => (f, flagIsDenied f))

/-- part_000 lines 283, 321, 338 (`x && x.length > 0`): an optional list
field backs a rendered section only when present and non-empty. -/
def truthyList (o : Option (List JSStr)) : Bool :=
  match o with
  | some l => !l.isEmpty
  | none => false

/-- The sections of the Structured-Verdict branch (part_000 lines 301-357),
with one field per conditionally rendered piece: `none` / `false` means the
section or line is omitted from the output. -/
structure StructuredRender where
  verdictText : Option JSStr
  stepFailedShown : Bool
  reasoningText : Option JSStr
  policySourceShown : Bool
  confidenceShown : Bool
  confidenceValue : Option Int
  codingAlerts : Option (List (JSStr × Bool))
  missingCriteria : Option (List JSStr)
  suggestedFixShown : Bool
deriving DecidableEq

/-- part_000 lines 301-357: the Structured-Verdict rendering. The verdict
banner and reasoning are unconditional; `step_failed` and `policy_source`
lines are guarded by truthiness; the confidence section by
`confidence_score != null` (loose inequality, so 0 passes); coding alerts
and missing criteria by presence and non-emptiness; suggested fix by
truthiness. Coding alerts carry the per-flag denied-class marker of
line 326. -/
def renderStructured (r : AuditResult) : StructuredRender where
  verdictText := r.verdict
  stepFailedShown := truthyStr r.step_failed
  reasoningText := r.reasoning
  policySourceShown := truthyStr r.policy_source
  confidenceShown := r.confidence_score.isSome
  confidenceValue := r.confidence_score
  codingAlerts :=
    match r.coding_flags with
    | some l => if l.isEmpty then none else some (l.map (fun f => (f, flagIsDenied f)))
    | none => none
  missingCriteria :=
    match r.missing_criteria with
    | some l => if l.isEmpty then none else some l
    | none => none
  suggestedFixShown := truthyStr r.suggested_fix

/-! ## Audit panel state machine (src/unnamed/part_000, lines 84-119 and 248-274)

The detail page holds three pieces of audit state (lines 84-86):
`audit : AuditResult | null`, `auditing : boolean`,
`auditError : string | null`. The four presentation conditions of the
verification column are the JSX guards of lines 248, 260, 267 and 274. -/

structure AuditPanelState where
  audit : Option AuditResult
  auditing : Bool
  auditError : Option JSStr
deriving DecidableEq

/-- part_000 lines 84-86: initial `useState` values — no result, not
auditing, no error. -/
def initialPanel : AuditPanelState :=
  { audit := none, auditing := false, auditError := none }

/-- part_000 line 248: `!audit && !auditing && !auditError` — the idle
(Ready to Audit) section, the only place the Run Verification button is
rendered. -/
def panelIdle (s : AuditPanelState) : Bool :=
  s.audit.isNone && !s.auditing && s.auditError.isNone

/-- part_000 line 260: `auditing` — the Running section. -/
def panelRunning (s : AuditPanelState) : Bool := s.auditing

/-- part_000 line 267: `auditError` — the transport-error section. -/
def panelErrorShown (s : AuditPanelState) : Bool := s.auditError.isSome

/-- part_000 line 274: `audit && !auditing` — the result section. -/
def panelResultShown (s : AuditPanelState) : Bool := s.audit.isSome && !s.auditing

/-- part_000 lines 105-107: the synchronous head of `runAudit` —
`setAuditing(true); setAuditError(null); setAudit(null)` — run before the
request is issued. -/
def triggerAudit (_s : AuditPanelState) : AuditPanelState :=
  { audit := none, auditing := true, auditError := none }

/-- How one audit request terminates: a parsed response body, or a
transport failure (non-ok HTTP status or network error, lines 111 and 114)
carrying the human-readable message built there. -/
inductive FetchOutcome where
  | ok (data : AuditResult)
  | transportError (msg : JSStr)
deriving DecidableEq

/-- part_000 lines 110-118: resolution of the in-flight request. On a
parsed body `setAudit(data)`; on failure `setAuditError(msg)`; in both
cases `finally setAuditing(false)`. Note no field of the outcome is
compared against the currently open claim. -/
def resolveAudit (s : AuditPanelState) (o : FetchOutcome) : AuditPanelState :=
  match o with
  | FetchOutcome.ok data => { s with audit := some data, auditing := false }
  | FetchOutcome.transportError m => { s with auditError := some m, auditing := false }

/-! ## Detail view with navigation (part_000 lines 76-119)

The component survives a change of the `id` route param: the
`useEffect(..., [id])` of lines 88-102 refetches the claim when `id`
changes, but no effect resets `audit`, `auditing` or `auditError`, and
`runAudit` captures the `id` in scope when the request is issued. The model
tracks the currently open claim id and the id an in-flight request was
issued for. A trigger event fires only where the button exists (the idle
branch, line 248); a resolve event is the completion of the in-flight
request, so it fires only when one is pending. -/

structure DetailState where
  currentId : Nat
  pendingFor : Option Nat
  panel : AuditPanelState
deriving DecidableEq

inductive DetailEvent where
  | navigate (toId : Nat)
  | trigger
  | resolve (o : FetchOutcome)
deriving DecidableEq

/-- One event step of the detail view. Navigation updates the route param
only (the audit state is untouched, as in the source); the trigger runs
`triggerAudit` and records the id the POST was issued for; the resolve
applies `resolveAudit` unconditionally — the arriving payload is not
checked against `currentId`. -/
def detailStep (s : DetailState) (e : DetailEvent) : DetailState :=
  match e with
  | DetailEvent.navigate b => { s with currentId := b }
  | DetailEvent.trigger =>
      if panelIdle s.panel then
        { s with panel := triggerAudit s.panel, pendingFor := some s.currentId }
      else s
  | DetailEvent.resolve o =>
      match s.pendingFor with
      | some _ => { s with panel := resolveAudit s.panel o, pendingFor := none }
      | none => s

/-- Opening the detail view of a claim: fresh audit state. -/
def initialDetail (claimId : Nat) : DetailState :=
  { currentId := claimId, pendingFor := none, panel := initialPanel }

/-- The state after a sequence of events from opening claim `claimId`. -/
def runDetail (claimId : Nat) (events : List DetailEvent) : DetailState :=
  events.foldl detailStep (initialDetail claimId)

/-! ### Reachable-state invariant of the audit panel -/

/-- Invariant of the panel fields: while a request runs both the result and
the error are cleared, and a result and a transport error are never stored
together. -/
def panelInv (p : AuditPanelState) : Prop :=
  (p.auditing = true → p.audit = none ∧ p.auditError = none)
  ∧ (p.audit.isSome = true → p.auditError = none)

/-- Invariant of the detail view: exactly when a request is in flight the
panel is in its auditing phase, and the panel invariant holds. -/
def detailInv (s : DetailState) : Prop :=
  s.pendingFor.isSome = s.panel.auditing ∧ panelInv s.panel

/-- Number of the four presentation sections of the verification column
whose JSX guard is satisfied. -/
def viewCount (p : AuditPanelState) : Nat :=
  (panelIdle p).toNat + (panelRunning p).toNat +
    (panelErrorShown p).toNat + (panelResultShown p).toNat

/-- Number of the three data-bearing conditions (in progress, transport
error present, result present) that hold. -/
def flagCount (p : AuditPanelState) : Nat :=
  (panelRunning p).toNat + (panelErrorShown p).toNat + p.audit.isSome.toNat

theorem viewCount_eq_one_of_inv (p : AuditPanelState) (h : panelInv p) :
    viewCount p = 1 := by
  obtain ⟨a, b, e⟩ := p
  cases b
  · cases a with
    | none =>
      cases e with
      | none => rfl
      | some m => rfl
    | some r =>
      cases e with
      | none => rfl
      | some m =>
        have he : (some m : Option JSStr) = none := h.2 rfl
        exact absurd he (by simp)
  · have ha : a = none := (h.1 rfl).1
    have he : e = none := (h.1 rfl).2
    subst ha
    subst he
    rfl

theorem flagCount_le_one_of_inv (p : AuditPanelState) (h : panelInv p) :
    flagCount p ≤ 1 := by
  obtain ⟨a, b, e⟩ := p
  cases b
  · cases a with
    | none =>
      cases e with
      | none => exact Nat.zero_le 1
      | some m => exact Nat.le_refl 1
    | some r =>
      cases e with
      | none => exact Nat.le_refl 1
      | some m =>
        have he : (some m : Option JSStr) = none := h.2 rfl
        exact absurd he (by simp)
  · have ha : a = none := (h.1 rfl).1
    have he : e = none := (h.1 rfl).2
    subst ha
    subst he
    exact Nat.le_refl 1

theorem detailInv_initial (claimId : Nat) : detailInv (initialDetail claimId) := by
  refine ⟨rfl, ?_, ?_⟩
  · intro h
    exact absurd h (by simp [initialDetail, initialPanel])
  · intro h
    exact absurd h (by simp [initialDetail, initialPanel])

theorem detailInv_step (s : DetailState) (e : DetailEvent) (h : detailInv s) :
    detailInv (detailStep s e) := by
  obtain ⟨hpend, hrun, hexcl⟩ := h
  cases e with
  | navigate b => exact ⟨hpend, hrun, hexcl⟩
  | trigger =>
    by_cases hidle : panelIdle s.panel = true
    · have hstep : detailStep s DetailEvent.trigger =
          { s with panel := triggerAudit s.panel, pendingFor := some s.currentId } := by
        simp [detailStep, hidle]
      rw [hstep]
      refine ⟨rfl, fun _ => ⟨rfl, rfl⟩, fun hh => ?_⟩
      exact absurd hh (by simp [triggerAudit])
    · have hstep : detailStep s DetailEvent.trigger = s := by
        simp [detailStep, hidle]
      rw [hstep]
      exact ⟨hpend, hrun, hexcl⟩
  | resolve o =>
    cases hp : s.pendingFor with
    | none =>
      have hstep : detailStep s (DetailEvent.resolve o) = s := by
        simp [detailStep, hp]
      rw [hstep]
      exact ⟨hpend, hrun, hexcl⟩
    | some reqId =>
      have hauditing : s.panel.auditing = true := by
        rw [← hpend, hp]
        rfl
      obtain ⟨ha, he⟩ := hrun hauditing
      have hstep : detailStep s (DetailEvent.resolve o) =
          { s with panel := resolveAudit s.panel o, pendingFor := none } := by
        simp [detailStep, hp]
      rw [hstep]
      cases o with
      | ok data =>
        refine ⟨?_, ?_, ?_⟩
        · show (none : Option Nat).isSome
            = (resolveAudit s.panel (FetchOutcome.ok data)).auditing
          simp [resolveAudit]
        · intro hh
          exact absurd hh (by simp [resolveAudit])
        · intro _
          show (resolveAudit s.panel (FetchOutcome.ok data)).auditError = none
          simpa [resolveAudit] using he
      | transportError m =>
        refine ⟨?_, ?_, ?_⟩
        · show (none : Option Nat).isSome
            = (resolveAudit s.panel (FetchOutcome.transportError m)).auditing
          simp [resolveAudit]
        · intro hh
          exact absurd hh (by simp [resolveAudit])
        · intro hh
          have hh2 : s.panel.audit.isSome = true := hh
          rw [ha] at hh2
          exact absurd hh2 (by simp)

theorem detailInv_run (claimId : Nat) (events : List DetailEvent) :
    detailInv (runDetail claimId events) := by
  unfold runDetail
  have h : ∀ (evs : List DetailEvent) (s : DetailState), detailInv s →
      detailInv (evs.foldl detailStep s) := by
    intro evs
    induction evs with
    | nil => intro s hs; exact hs
    | cons e t ih =>
      intro s hs
      exact ih (detailStep s e) (detailInv_step s e hs)
  exact h events (initialDetail claimId) (detailInv_initial claimId)

/-! ## Claim theorems -/

/-- C2: for every claim list L and query q, the filter output is an
order-preserving subset of L (a sublist); an empty or whitespace-only query
leaves L unchanged; an empty L gives an empty output; and a claim is in the
output exactly when it is in L and (the trimmed-and-lowercased query is
empty, or its lowercased patient_id contains that query, or it has a
non-null payer_name whose lowercased form contains that query) — no other
field participates. -/
theorem filterClaims_spec (L : List WorklistClaim) (q : JSStr) :
    List.Sublist (filterClaims L q) L
    ∧ (q.all isSpaceCode = true → filterClaims L q = L)
    ∧ (L = [] → filterClaims L q = [])
    ∧ (∀ c, c ∈ filterClaims L q ↔ c ∈ L ∧
        (toLowerStr (trimStr q) = [] ∨
          includesStr (toLowerStr c.patient_id) (toLowerStr (trimStr q)) = true ∨
          ∃ p, c.payer_name = some p
            ∧ includesStr (toLowerStr p) (toLowerStr (trimStr q)) = true)) := by
  have hkey : toLowerStr (trimStr q) = normalizeQuery q := (normalizeQuery_eq q).symm
  by_cases hq : (normalizeQuery q).isEmpty = true
  · have hnql : normalizeQuery q = [] := List.isEmpty_iff.mp hq
    have hfe : filterClaims L q = L := by simp [filterClaims, hq]
    refine ⟨by rw [hfe], fun _ => hfe, fun hL => by rw [hfe, hL], ?_⟩
    intro c
    rw [hfe, hkey, hnql]
    simp
  · have hne : normalizeQuery q ≠ [] := fun hnil => hq (List.isEmpty_iff.mpr hnil)
    have hfe : filterClaims L q = L.filter (claimMatches (normalizeQuery q)) := by
      simp [filterClaims, hq]
    have hmatch : ∀ c : WorklistClaim, claimMatches (normalizeQuery q) c = true ↔
        (includesStr (toLowerStr c.patient_id) (normalizeQuery q) = true ∨
          ∃ p, c.payer_name = some p
            ∧ includesStr (toLowerStr p) (normalizeQuery q) = true) := by
      intro c
      unfold claimMatches
      rw [Bool.or_eq_true]
      apply or_congr Iff.rfl
      cases hp : c.payer_name with
      | none => simp
      | some p =>
        rw [Bool.and_eq_true]
        constructor
        · rintro ⟨_, hinc⟩
          exact ⟨p, rfl, hinc⟩
        · rintro ⟨p2, hp2, hinc⟩
          have hpp : p = p2 := by injection hp2
          subst hpp
          refine ⟨?_, hinc⟩
          have hpne : p ≠ [] := by
            intro hnil
            subst hnil
            rw [show toLowerStr [] = [] from rfl, includesStr_nil _ hne] at hinc
            exact Bool.false_ne_true hinc
          simpa using hpne
    refine ⟨?_, ?_, ?_, ?_⟩
    · rw [hfe]
      exact List.filter_sublist L
    · intro hall
      exfalso
      apply hne
      unfold normalizeQuery
      apply trimStr_all_space
      intro n hn
      obtain ⟨m, hm, rfl⟩ := List.mem_map.mp hn
      rw [isSpaceCode_lowerCode]
      exact List.all_eq_true.mp hall m hm
    · intro hL
      rw [hfe, hL]
      rfl
    · intro c
      rw [hfe, List.mem_filter, hkey]
      constructor
      · rintro ⟨hc, hm⟩
        exact ⟨hc, Or.inr ((hmatch c).mp hm)⟩
      · rintro ⟨hc, hnil | hrest⟩
        · exact absurd hnil hne
        · exact ⟨hc, (hmatch c).mpr hrest⟩

/-- The worklist example of the spec: P1/Acme and P2/Globex. -/
def claimP1 : WorklistClaim :=
  { id := 1, patient_id := strW ("P1"), payer_name := some (strW ("Acme")),
    date_of_service := none, claim_amount := none, status := strW ("PENDING") }

def claimP2 : WorklistClaim :=
  { id := 2, patient_id := strW ("P2"), payer_name := some (strW ("Globex")),
    date_of_service := none, claim_amount := none, status := strW ("PENDING") }

def worklistExample : List WorklistClaim := [claimP1, claimP2]

/-- Witness for C2 at the spec's examples: the query p1 selects a sublist
containing the P1 claim, and a whitespace-only query leaves the list
unchanged. -/
theorem filterClaims_spec_witness :
    List.Sublist (filterClaims worklistExample (strW ("p1"))) worklistExample
    ∧ claimP1 ∈ filterClaims worklistExample (strW ("p1"))
    ∧ filterClaims worklistExample (strW ("   ")) = worklistExample :=
  ⟨(filterClaims_spec worklistExample (strW ("p1"))).1,
    ((filterClaims_spec worklistExample (strW ("p1"))).2.2.2 claimP1).mpr
      ⟨by decide, Or.inr (Or.inl (by decide))⟩,
    (filterClaims_spec worklistExample (strW ("   "))).2.1 (by decide)⟩

/-- C1: for every audit response whose status field is the string warning
or error, the classifier selects the Pipeline-Warning/Error variant — the
status check is the first branch of the ternary chain, so it wins over the
raw-fallback check and the structured-verdict default whatever the other
fields hold. -/
theorem classify_status_wins (r : AuditResult)
    (h : r.status = some (strW ("warning")) ∨ r.status = some (strW ("error"))) :
    classify r = ResultVariant.pipelineIssue := by
  have hb : isPipelineStatus r = true := by
    unfold isPipelineStatus
    rcases h with h | h <;> rw [h] <;> simp
  unfold classify
  rw [hb]
  rfl

/-- A response with status error, a populated verdict and a populated
raw_output. -/
def statusAndVerdictAudit : AuditResult :=
  { status := some (strW ("error")), verdict := some (strW ("APPROVED")),
    message := some (strW ("pipeline failed")),
    raw_output := some (strW ("raw text")), confidence_score := some 92 }

/-- Witness for C1: the error-status response with a populated verdict and
raw_output still classifies as Pipeline-Warning/Error. -/
theorem classify_status_wins_witness :
    classify statusAndVerdictAudit = ResultVariant.pipelineIssue :=
  classify_status_wins statusAndVerdictAudit (Or.inr (by decide))

/-- C4: the classifier selects Raw-Fallback exactly when the status check
fails and raw_output is a present non-empty string; a response with an
absent or empty raw_output never enters Raw-Fallback; and in the
Raw-Fallback state the displayed text is the raw_output string itself,
verbatim. -/
theorem classify_rawFallback_iff (r : AuditResult) :
    (classify r = ResultVariant.rawFallback
      ↔ r.status ≠ some (strW ("warning")) ∧ r.status ≠ some (strW ("error"))
        ∧ ∃ s, r.raw_output = some s ∧ s ≠ [])
    ∧ (hasRawOutput r = false → classify r ≠ ResultVariant.rawFallback)
    ∧ (∀ s, classify r = ResultVariant.rawFallback → r.raw_output = some s →
        rawFallbackText r = s) := by
  have hstat : isPipelineStatus r = false ↔
      (r.status ≠ some (strW ("warning")) ∧ r.status ≠ some (strW ("error"))) := by
    unfold isPipelineStatus
    cases r.status with
    | none => simp
    | some s =>
      simp only [Bool.or_eq_false_iff, decide_eq_false_iff_not, ne_eq,
        Option.some.injEq]
  have hraw : hasRawOutput r = true ↔ ∃ s, r.raw_output = some s ∧ s ≠ [] := by
    unfold hasRawOutput truthyStr
    cases r.raw_output with
    | none => simp
    | some s => simp
  have hbool : classify r = ResultVariant.rawFallback
      ↔ isPipelineStatus r = false ∧ hasRawOutput r = true := by
    unfold classify
    cases h1 : isPipelineStatus r with
    | true => simp
    | false =>
      cases h2 : hasRawOutput r with
      | true => simp
      | false => simp
  refine ⟨?_, ?_, ?_⟩
  · rw [hbool, hstat, hraw, and_assoc]
  · intro h2 hc
    have hh := (hbool.mp hc).2
    rw [h2] at hh
    exact Bool.false_ne_true hh
  · intro s _ hs
    unfold rawFallbackText
    rw [hs]

/-- The spec's raw-fallback example: only raw_output is populated. -/
def rawOnlyAudit : AuditResult := { raw_output := some (strW ("LLM parse failed")) }

/-- Witness for C4: the raw-only response classifies as Raw-Fallback and
its text is shown verbatim. -/
theorem classify_rawFallback_iff_witness :
    classify rawOnlyAudit = ResultVariant.rawFallback
    ∧ rawFallbackText rawOnlyAudit = strW ("LLM parse failed") :=
  ⟨(classify_rawFallback_iff rawOnlyAudit).1.mpr
      ⟨by decide, by decide, strW ("LLM parse failed"), rfl, by decide⟩,
    (classify_rawFallback_iff rawOnlyAudit).2.2 (strW ("LLM parse failed"))
      ((classify_rawFallback_iff rawOnlyAudit).1.mpr
        ⟨by decide, by decide, strW ("LLM parse failed"), rfl, by decide⟩) rfl⟩

/-- C5: denied-class detection on a coding flag is the exact case-sensitive
literal prefix check for DENIED: a flag is denied-class exactly when its
code-point sequence is DENIED followed by anything; in particular
"DENIED - mismatch" is denied-class and "Denied - mismatch" is not. -/
theorem flagIsDenied_literal :
    (∀ s, flagIsDenied s = true ↔ ∃ t, s = strW ("DENIED") ++ t)
    ∧ flagIsDenied (strW ("DENIED - mismatch")) = true
    ∧ flagIsDenied (strW ("Denied - mismatch")) = false := by
  refine ⟨?_, by decide, by decide⟩
  intro s
  unfold flagIsDenied startsWithStr
  rw [List.isPrefixOf_iff_prefix]
  constructor
  · rintro ⟨t, ht⟩
    exact ⟨t, ht.symm⟩
  · rintro ⟨t, ht⟩
    exact ⟨t, ht.symm⟩

/-- The spec's warning example flag. -/
def deniedExampleFlag : JSStr := strW ("DENIED:99213 mismatch")

/-- The spec's Pipeline-Warning example response. -/
def warningWithDeniedFlag : AuditResult :=
  { status := some (strW ("warning")), message := some (strW ("timeout")),
    coding_flags := some [deniedExampleFlag] }

/-- C3 (failing input): the warning response carrying the flag
"DENIED:99213 mismatch" classifies as Pipeline-Warning/Error, the flag
satisfies the literal DENIED prefix test, and part_001's warning branch
marks it denied-class — but part_000's warning branch renders it with no
denied-class marking. -/
theorem warningBranch_denied_marking_divergence :
    classify warningWithDeniedFlag = ResultVariant.pipelineIssue
    ∧ flagIsDenied deniedExampleFlag = true
    ∧ warningFlagsRender_part001 [deniedExampleFlag] = [(deniedExampleFlag, true)]
    ∧ warningFlagsRender_part000 [deniedExampleFlag] = [(deniedExampleFlag, false)] := by
  refine ⟨by decide, by decide, by decide, by decide⟩

/-- C6: the synchronous head of runAudit (part_000 lines 105-107) runs
before the request is issued and, from any prior panel state in which a
result or a transport error was visible, leaves the panel Running with no
result and no error stored, so neither the result section nor the error
section can render. -/
theorem runAudit_clears_previous (s : AuditPanelState)
    (_h : s.audit.isSome = true ∨ s.auditError.isSome = true) :
    panelRunning (triggerAudit s) = true
    ∧ (triggerAudit s).audit = none
    ∧ (triggerAudit s).auditError = none
    ∧ panelResultShown (triggerAudit s) = false
    ∧ panelErrorShown (triggerAudit s) = false :=
  ⟨rfl, rfl, rfl, rfl, rfl⟩

/-- A panel still showing a stale result. -/
def staleResultPanel : AuditPanelState :=
  { audit := some statusAndVerdictAudit, auditing := false, auditError := none }

/-- Witness for C6 at a panel holding a displayed result. -/
theorem runAudit_clears_previous_witness :
    staleResultPanel.audit.isSome = true
    ∧ panelRunning (triggerAudit staleResultPanel) = true
    ∧ (triggerAudit staleResultPanel).audit = none
    ∧ (triggerAudit staleResultPanel).auditError = none :=
  ⟨rfl, (runAudit_clears_previous staleResultPanel (Or.inl rfl)).1,
    (runAudit_clears_previous staleResultPanel (Or.inl rfl)).2.1,
    (runAudit_clears_previous staleResultPanel (Or.inl rfl)).2.2.1⟩

/-- The response the external service sends back for claim 1. -/
def auditResponseForA : AuditResult :=
  { verdict := some (strW ("APPROVED")), reasoning := some (strW ("criteria met")),
    confidence_score := some 92 }

/-- The race trace: trigger an audit while claim 1 is open, navigate to
claim 2, then the late response for claim 1 arrives. -/
def staleTrace : List DetailEvent :=
  [DetailEvent.trigger, DetailEvent.navigate 2,
    DetailEvent.resolve (FetchOutcome.ok auditResponseForA)]

/-- C7 (failing input): after triggering an audit on claim 1 and navigating
to claim 2 while it is in flight, the request issued for claim 1 is still
pending with claim 2 open, and when it resolves the view stores and shows
claim 1's result under claim 2 — the resolve handler of part_000 lines
110-118 applies the payload without comparing it to the open claim. -/
theorem stale_response_shown_under_other_claim :
    ((staleTrace.take 2).foldl detailStep (initialDetail 1)).pendingFor = some 1
    ∧ ((staleTrace.take 2).foldl detailStep (initialDetail 1)).currentId = 2
    ∧ (runDetail 1 staleTrace).currentId = 2
    ∧ (runDetail 1 staleTrace).panel.audit = some auditResponseForA
    ∧ panelResultShown (runDetail 1 staleTrace).panel = true := by
  refine ⟨by decide, by decide, by decide, by decide, by decide⟩

/-- C8: a response failing both the status check and the raw_output check —
whatever its shape, including the empty object — falls to the
Structured-Verdict variant; classification and rendering are total
functions, and every conditionally rendered section whose backing field is
absent is omitted; on the empty object every conditional section is
omitted. -/
theorem unrecognized_shape_structured (r : AuditResult)
    (h1 : isPipelineStatus r = false) (h2 : hasRawOutput r = false) :
    classify r = ResultVariant.structuredVerdict
    ∧ (r.step_failed = none → (renderStructured r).stepFailedShown = false)
    ∧ (r.policy_source = none → (renderStructured r).policySourceShown = false)
    ∧ (r.confidence_score = none → (renderStructured r).confidenceShown = false)
    ∧ (r.coding_flags = none → (renderStructured r).codingAlerts = none)
    ∧ (r.missing_criteria = none → (renderStructured r).missingCriteria = none)
    ∧ (r.suggested_fix = none → (renderStructured r).suggestedFixShown = false)
    ∧ renderStructured emptyAudit =
        { verdictText := none, stepFailedShown := false, reasoningText := none,
          policySourceShown := false, confidenceShown := false,
          confidenceValue := none, codingAlerts := none, missingCriteria := none,
          suggestedFixShown := false } := by
  refine ⟨?_, ?_, ?_, ?_, ?_, ?_, ?_, by decide⟩
  · unfold classify
    rw [h1, h2]
    rfl
  · intro h
    show truthyStr r.step_failed = false
    rw [h]
    rfl
  · intro h
    show truthyStr r.policy_source = false
    rw [h]
    rfl
  · intro h
    show r.confidence_score.isSome = false
    rw [h]
    rfl
  · intro h
    show (match r.coding_flags with
      | some l => if l.isEmpty then none
          else some (l.map (fun f => (f, flagIsDenied f)))
      | none => none) = none
    rw [h]
  · intro h
    show (match r.missing_criteria with
      | some l => if l.isEmpty then none else some l
      | none => none) = none
    rw [h]
  · intro h
    show truthyStr r.suggested_fix = false
    rw [h]
    rfl

/-- Witness for C8: the empty object discharges both hypotheses and
classifies as Structured-Verdict. -/
theorem unrecognized_shape_structured_witness :
    classify emptyAudit = ResultVariant.structuredVerdict :=
  (unrecognized_shape_structured emptyAudit (by decide) (by decide)).1

/-- Number of result variants a response satisfies. -/
def variantCount (r : AuditResult) : Nat :=
  (decide (classify r = ResultVariant.pipelineIssue)).toNat
  + (decide (classify r = ResultVariant.rawFallback)).toNat
  + (decide (classify r = ResultVariant.structuredVerdict)).toNat

/-- C9: in every state reachable from opening a claim detail view by
navigation, audit triggers and request resolutions, exactly one of the four
presentation sections (idle, running, transport error, result) has its
rendering guard satisfied; at most one of audit-in-progress,
transport-error-present and result-present holds; and any given response
payload selects exactly one result variant. -/
theorem presentation_states_mutually_exclusive :
    (∀ (claimId : Nat) (events : List DetailEvent),
      viewCount (runDetail claimId events).panel = 1)
    ∧ (∀ (claimId : Nat) (events : List DetailEvent),
      flagCount (runDetail claimId events).panel ≤ 1)
    ∧ (∀ r, variantCount r = 1) := by
  refine ⟨?_, ?_, ?_⟩
  · intro claimId events
    exact viewCount_eq_one_of_inv _ (detailInv_run claimId events).2
  · intro claimId events
    exact flagCount_le_one_of_inv _ (detailInv_run claimId events).2
  · intro r
    unfold variantCount classify
    cases h1 : isPipelineStatus r with
    | true => rfl
    | false =>
      cases h2 : hasRawOutput r with
      | true => rfl
      | false => rfl

/-- A structured response whose confidence score is present but zero and
whose string and list fields are present but empty. -/
def zeroConfidenceAudit : AuditResult :=
  { verdict := some (strW ("WARNING")), confidence_score := some 0,
    reasoning := some (strW ("low signal")), suggested_fix := some [],
    coding_flags := some [], missing_criteria := some [] }

/-- C10: the structured-verdict display guards are asymmetric between the
number and the strings/lists: the confidence section renders for every
present (non-null) confidence_score, including 0, and then shows that very
score; the suggested-fix section renders only for a present non-empty
string; the coding-alerts and missing-criteria sections only for present
non-empty lists. On a response with score 0 and empty string/list fields,
only the confidence section survives. -/
theorem structured_guard_asymmetry (r : AuditResult) :
    ((renderStructured r).confidenceShown = true ↔ r.confidence_score ≠ none)
    ∧ ((renderStructured r).confidenceValue = r.confidence_score)
    ∧ ((renderStructured r).suggestedFixShown = true
      ↔ ∃ s, r.suggested_fix = some s ∧ s ≠ [])
    ∧ ((renderStructured r).codingAlerts ≠ none
      ↔ ∃ l, r.coding_flags = some l ∧ l ≠ [])
    ∧ ((renderStructured r).missingCriteria ≠ none
      ↔ ∃ l, r.missing_criteria = some l ∧ l ≠ [])
    ∧ (renderStructured zeroConfidenceAudit).confidenceShown = true
    ∧ (renderStructured zeroConfidenceAudit).confidenceValue = some 0
    ∧ (renderStructured zeroConfidenceAudit).suggestedFixShown = false
    ∧ (renderStructured zeroConfidenceAudit).codingAlerts = none
    ∧ (renderStructured zeroConfidenceAudit).missingCriteria = none := by
  refine ⟨?_, rfl, ?_, ?_, ?_, by decide, by decide, by decide, by decide, by decide⟩
  · show r.confidence_score.isSome = true ↔ r.confidence_score ≠ none
    cases r.confidence_score with
    | none => simp
    | some v => simp
  · show truthyStr r.suggested_fix = true ↔ ∃ s, r.suggested_fix = some s ∧ s ≠ []
    cases hs : r.suggested_fix with
    | none => simp [truthyStr]
    | some v =>
      simp only [truthyStr, Bool.not_eq_true', List.isEmpty_eq_false,
        Option.some.injEq]
      constructor
      · intro hv
        exact ⟨v, rfl, hv⟩
      · rintro ⟨s, hss, hne⟩
        subst hss
        exact hne
  · show (match r.coding_flags with
        | some l => if l.isEmpty then none
            else some (l.map (fun f => (f, flagIsDenied f)))
        | none => none) ≠ none
      ↔ ∃ l, r.coding_flags = some l ∧ l ≠ []
    cases hc : r.coding_flags with
    | none => simp
    | some l =>
      cases hl : l.isEmpty with
      | true =>
        have hln : l = [] := List.isEmpty_iff.mp hl
        subst hln
        simp
      | false =>
        have hln : l ≠ [] := List.isEmpty_eq_false.mp hl
        simp only [hl, Bool.false_eq_true, if_false, Option.some.injEq]
        constructor
        · intro _
          exact ⟨l, rfl, hln⟩
        · intro _
          simp
  · show (match r.missing_criteria with
        | some l => if l.isEmpty then none else some l
        | none => none) ≠ none
      ↔ ∃ l, r.missing_criteria = some l ∧ l ≠ []
    cases hc : r.missing_criteria with
    | none => simp
    | some l =>
      cases hl : l.isEmpty with
      | true =>
        have hln : l = [] := List.isEmpty_iff.mp hl
        subst hln
        simp
      | false =>
        have hln : l ≠ [] := List.isEmpty_eq_false.mp hl
        simp only [hl, Bool.false_eq_true, if_false, Option.some.injEq]
        constructor
        · intro _
          exact ⟨l, rfl, hln⟩
        · intro _
          simp
